import Mathlib

/-!
Shallow embedding of the configuration / validation / health layer of the
bb-app repository: the `EnvironmentConfig` module (environment file loading,
precedence, required-key and secret validation, typed accessors, sanitized
view) and the server health layer (`/ready`, `/health` handlers and the
`connectWithRetry` loop).
-/

namespace BBApp

/-! ### Basic string helpers (kernel-reducible models of the JS operations) -/

/-- Whitespace characters recognised by trimming (ASCII subset, as used by the
configuration files under test). -/
def charIsWhitespace (c : Char) : Bool :=
  c = ' ' || c = '\t' || c = '\n' || c = '\r'

/-- Trim leading and trailing whitespace from a character list. -/
def trimChars (cs : List Char) : List Char :=
  ((cs.dropWhile charIsWhitespace).reverse.dropWhile charIsWhitespace).reverse

/-- Model of JS `String.prototype.trim`. -/
def strTrim (s : String) : String := String.mk (trimChars s.toList)

/-- Character-list version of `startsWith`. -/
def listStartsWith : List Char → List Char → Bool
  | _, [] => true
  | [], _ :: _ => false
  | c :: cs, p :: ps => c = p && listStartsWith cs ps

/-- Model of JS `String.prototype.startsWith`. -/
def strStartsWith (s p : String) : Bool := listStartsWith s.toList p.toList

/-- Last-character test, model of JS `endsWith` for a single character. -/
def strEndsWithChar (s : String) (c : Char) : Bool :=
  match s.toList.getLast? with
  | some d => d = c
  | none => false

/-- JS string length (code units; all configuration values here are ASCII). -/
def strLen (s : String) : Nat := s.toList.length

/-- Model of JS `String.prototype.toLowerCase` as a character list. -/
def lowerChars (s : String) : List Char := s.toList.map Char.toLower

/-- Case-insensitive starts-with, modelling a JS regex `^pat` with the `i` flag. -/
def startsWithCI (v p : String) : Bool := listStartsWith (lowerChars v) (lowerChars p)

/-- Case-insensitive whole-string match, modelling a JS regex `^pat$` with `i`. -/
def eqCI (v p : String) : Bool := lowerChars v = lowerChars p

/-- Split a string on newline characters, model of JS `content.split` with
a newline separator. -/
def splitLinesAux : List Char → List Char → List String
  | acc, [] => [String.mk acc.reverse]
  | acc, c :: cs =>
    if c = '\n' then String.mk acc.reverse :: splitLinesAux [] cs
    else splitLinesAux (c :: acc) cs

/-- All lines of a file content string. -/
def splitLines (s : String) : List String := splitLinesAux [] s.toList

/-- Value of a base-10 digit list, most significant first. -/
def digitsToNat (ds : List Char) : Nat :=
  ds.foldl (fun acc c => acc * 10 + (c.toNat - 48)) 0

/-- Model of JS `parseInt(s, 10)`: trim, optional sign, longest digit run;
`none` models the JS `NaN` result when no digits are found. -/
def parseIntJS (s : String) : Option Int :=
  let cs := trimChars s.toList
  let signAndRest : Int × List Char :=
    match cs with
    | '-' :: r => (-1, r)
    | '+' :: r => (1, r)
    | r => (1, r)
  let ds := signAndRest.2.takeWhile Char.isDigit
  if ds.isEmpty then none
  else some (signAndRest.1 * (digitsToNat ds : Int))

/-! ### The configuration map (a JS plain object of string values) -/

/-- A JS object mapping configuration keys to string values; `none` models an
absent property (JS `undefined`). -/
def ConfigMap : Type := String → Option String

/-- The empty object. -/
def emptyConfig : ConfigMap := fun _ => none

/-- Property assignment `m[k] = v`. -/
def setKey (m : ConfigMap) (k v : String) : ConfigMap :=
  fun q => if q = k then some v else m q

/-- Model of `hasOwnProperty`. -/
def hasKey (m : ConfigMap) (k : String) : Bool := (m k).isSome

/-- JS truthiness of an optional string: `undefined` and the empty string are
falsy, every other string is truthy. -/
def jsTruthy : Option String → Bool
  | none => false
  | some s => s ≠ ""

/-! ### EnvironmentConfig.loadEnvFile (src/unnamed/part_000, lines 56-90) -/

/-- Strip one matching pair of surrounding double or single quotes, as the
loader does after trimming a value. -/
def stripQuotes (v : String) : String :=
  let dq : Char := Char.ofNat 34
  let sq : Char := Char.ofNat 39
  if (strStartsWith v (String.mk [dq]) && strEndsWithChar v dq) ||
     (strStartsWith v (String.mk [sq]) && strEndsWithChar v sq) then
    String.mk ((v.toList.drop 1).dropLast)
  else v

/-- Model of the line regex `(^([^=]+)=(.*)$)`: the key is everything before
the first equals sign (must be non-empty), the value is the rest; `none`
models a non-matching (malformed) line. -/
def splitKeyValue (line : String) : Option (String × String) :=
  let cs := line.toList
  let keyPart := cs.takeWhile (fun c => c ≠ '=')
  match cs.dropWhile (fun c => c ≠ '=') with
  | [] => none
  | _ :: valuePart =>
    if keyPart.isEmpty then none
    else some (String.mk keyPart, String.mk valuePart)

/-- One iteration of the loader loop over a file line: trim, skip blank and
comment lines, parse `key=value`, trim both parts, strip quotes, and insert
only if the key is not already present. Malformed lines are skipped with a
warning. -/
def applyEnvLine (m : ConfigMap) (rawLine : String) : ConfigMap :=
  let line := strTrim rawLine
  if line = "" || strStartsWith line "#" then m
  else
    match splitKeyValue line with
    | none => m
    | some (k, v) =>
      let cleanKey := strTrim k
      let cleanValue := stripQuotes (strTrim v)
      if hasKey m cleanKey then m else setKey m cleanKey cleanValue

/-- Model of `loadEnvFile`: fold the line loop over the file content. -/
def loadEnvFile (m : ConfigMap) (content : String) : ConfigMap :=
  (splitLines content).foldl applyEnvLine m

/-! ### EnvironmentConfig.loadEnvironmentFiles (part_000, lines 33-51) -/

/-- Load each existing environment file in the order the loader iterates them
(`.env`, then `.env.<environment>`, then `.env.local`); `none` models a file
that does not exist and is silently skipped. -/
def loadFiles (files : List (Option String)) : ConfigMap :=
  files.foldl
    (fun m f =>
      match f with
      | none => m
      | some content => loadEnvFile m content)
    emptyConfig

/-- The final spread `\x7b...this.config, ...process.env\x7d`: every key present in
the process environment overwrites the file-derived value. -/
def overlayProcessEnv (m : ConfigMap) (penv : ConfigMap) : ConfigMap :=
  fun k =>
    match penv k with
    | some v => some v
    | none => m k

/-- The resolved configuration map produced by `loadEnvironmentFiles`. -/
def resolveConfig (files : List (Option String)) (penv : ConfigMap) : ConfigMap :=
  overlayProcessEnv (loadFiles files) penv

/-- The environment label `process.env.NODE_ENV || 'development'` (JS `||`
falls through on the empty string as well as on `undefined`). -/
def resolveEnvironment (penv : ConfigMap) : String :=
  match penv "NODE_ENV" with
  | some s => if s = "" then "development" else s
  | none => "development"

/-! ### EnvironmentConfig.isInsecureSecret (part_000, lines 183-192) -/

/-- The four insecure-pattern regexes of the source, in source order:
three case-insensitive prefix alternations and one exact alternation. -/
def insecureSourcePatterns (v : String) : Bool :=
  (["dev", "development", "test", "staging", "demo"].any (fun p => startsWithCI v p)) ||
  (["your-", "change-this", "replace-with", "example"].any (fun p => startsWithCI v p)) ||
  (["secret", "password", "key"].any (fun p => eqCI v p)) ||
  (["123", "abc", "test"].any (fun p => startsWithCI v p))

/-- Model of `isInsecureSecret`: any pattern matches, or the value is shorter
than 16 characters. -/
def isInsecureSecret (v : String) : Bool :=
  insecureSourcePatterns v || decide (strLen v < 16)

/-- Case-insensitive-prefix membership, following the words of the spec. -/
def hasCIPrefixAmong (v : String) (pats : List String) : Prop :=
  ∃ p ∈ pats, startsWithCI v p = true

/-- The insecure classification exactly as the specification words it: one of
three prefix families, an exact match family, or length below 16. -/
def specInsecureClassification (v : String) : Prop :=
  hasCIPrefixAmong v ["dev", "development", "test", "staging", "demo"] ∨
  hasCIPrefixAmong v ["your-", "change-this", "replace-with", "example"] ∨
  hasCIPrefixAmong v ["123", "abc", "test"] ∨
  (∃ p ∈ (["secret", "password", "key"] : List String), eqCI v p = true) ∨
  strLen v < 16

/-! ### EnvironmentConfig.validateConfiguration (part_000, lines 145-178) -/

/-- The validation result: required keys with falsy values, and (under the
production label only) secret keys with truthy insecure values. -/
structure ValidationResult where
  missingKeys : List String
  insecureKeys : List String
deriving Repr, DecidableEq

/-- Compute missing and insecure keys exactly as `validateConfiguration`
does before it reports. -/
def computeValidation (requiredVars secretVars : List String)
    (environment : String) (config : ConfigMap) : ValidationResult :=
  let missing := requiredVars.filter (fun k => !(jsTruthy (config k)))
  let insecure :=
    if environment = "production" then
      secretVars.filter (fun k =>
        match config k with
        | some v => decide (v ≠ "") && isInsecureSecret v
        | none => false)
    else []
  ⟨missing, insecure⟩

/-- The error thrown by `validateConfiguration`, if any: missing keys are
reported first, then insecure production secrets. -/
def validationError (r : ValidationResult) : Option String :=
  if !r.missingKeys.isEmpty then
    some ("Missing required environment variables: " ++ String.intercalate ", " r.missingKeys)
  else if !r.insecureKeys.isEmpty then
    some ("Insecure secrets detected in production: " ++ String.intercalate ", " r.insecureKeys)
  else none

/-! ### The EnvironmentConfig instance and module initialization (part_000) -/

/-- The state of an `EnvironmentConfig` instance. -/
structure EnvironmentConfig where
  environment : String
  requiredVars : List String
  secretVars : List String
  config : ConfigMap

/-- The built-in secret set of the constructor. -/
def defaultSecretVars : List String := ["SESSION_SECRET", "JWT_SECRET", "MONGODB_URI"]

/-- Set insertion used by `require` and `secrets`. -/
def addToSet (s : List String) (v : String) : List String :=
  if v ∈ s then s else s ++ [v]

/-- Model of `envConfig.require(...)`. -/
def requireVars (st : EnvironmentConfig) (vars : List String) : EnvironmentConfig :=
  { st with requiredVars := vars.foldl addToSet st.requiredVars }

/-- Model of `envConfig.secrets(...)`. -/
def secretsVars (st : EnvironmentConfig) (vars : List String) : EnvironmentConfig :=
  { st with secretVars := vars.foldl addToSet st.secretVars }

/-- The constructor: resolve the label, load files and overlay the process
environment, then validate — with `requiredVars` still empty, since `require`
has not yet been called. An `error` result models the thrown exception. -/
def constructEnvironmentConfig (penv : ConfigMap) (files : List (Option String)) :
    Except String EnvironmentConfig :=
  let environment := resolveEnvironment penv
  let config := resolveConfig files penv
  let st : EnvironmentConfig :=
    { environment := environment, requiredVars := [], secretVars := defaultSecretVars,
      config := config }
  match validationError (computeValidation st.requiredVars st.secretVars st.environment st.config) with
  | some e => Except.error e
  | none => Except.ok st

/-- The keys the module registers as required after construction. -/
def appRequiredVars : List String := ["NODE_ENV", "PORT", "MONGODB_URI"]

/-- Module initialization (part_000, lines 222-228): construct the singleton,
then register required keys and secrets. No further validation runs after
the registration calls. -/
def moduleInit (penv : ConfigMap) (files : List (Option String)) :
    Except String EnvironmentConfig :=
  match constructEnvironmentConfig penv files with
  | Except.error e => Except.error e
  | Except.ok st => Except.ok (secretsVars (requireVars st appRequiredVars) defaultSecretVars)

/-- Whether module initialization completed without a thrown validation
error (a thrown error would abort the process before any listener opens). -/
def initSucceeded (r : Except String EnvironmentConfig) : Bool :=
  match r with
  | Except.ok _ => true
  | Except.error _ => false

/-! ### Typed accessors (part_000, lines 111-140) -/

/-- Model of `get(key, defaultValue)`. -/
def getValue (st : EnvironmentConfig) (key : String) (defaultValue : Option String) :
    Option String :=
  match st.config key with
  | some v => some v
  | none => defaultValue

/-- Model of `getInt(key, defaultValue)` with an integer default. The outer
`Option` models JS `undefined`; the inner `Option` models the result of
`parseInt`, with `none` standing for `NaN`. -/
def getInt (st : EnvironmentConfig) (key : String) (defaultValue : Option Int) :
    Option (Option Int) :=
  match st.config key with
  | some v => some (parseIntJS v)
  | none =>
    match defaultValue with
    | some n => some (parseIntJS (toString n))
    | none => none

/-- The fixed mask token used by the sanitized view. -/
def maskToken : String := "***MASKED***"

/-- Model of `getSanitizedConfig`: copy the map and overwrite every secret
key whose value is truthy with the mask token. -/
def getSanitizedConfig (st : EnvironmentConfig) : ConfigMap :=
  fun k =>
    match st.config k with
    | none => none
    | some v =>
      if st.secretVars.contains k then
        (if v = "" then some v else some maskToken)
      else some v

/-! ### Connection state and health handlers (src/unnamed/part_001) -/

/-- The mongoose `connection.readyState` values the handlers map to labels. -/
inductive DbState where
  | disconnected
  | connected
  | connecting
  | disconnecting
deriving Repr, DecidableEq

/-- The `dbStates` label table of the health handler. -/
def dbStateLabel : DbState → String
  | DbState.disconnected => "disconnected"
  | DbState.connected => "connected"
  | DbState.connecting => "connecting"
  | DbState.disconnecting => "disconnecting"

/-- Whether an awaited ping promise resolved (`ok`) or threw (`error`). -/
def pingOk (p : Except String Unit) : Bool :=
  match p with
  | Except.ok _ => true
  | Except.error _ => false

/-- Response of the `/ready` handler (part_001, lines 726-756). -/
structure ReadyResponse where
  statusCode : Nat
  status : String
  reason : Option String
  error : Option String
deriving Repr, DecidableEq

/-- Model of the `/ready` handler: with the connection state Connected it
performs a quick admin ping and returns 200 on success; a thrown ping error
is caught and answered with 503; any other state answers 503 with the fixed
reason string. -/
def readyHandler (dbState : DbState) (ping : Except String Unit) : ReadyResponse :=
  if dbState = DbState.connected then
    match ping with
    | Except.ok _ => ⟨200, "ready", none, none⟩
    | Except.error e => ⟨503, "not ready", none, some e⟩
  else
    ⟨503, "not ready", some "Database not connected", none⟩

/-- The database section of the `/health` response body. -/
structure HealthDatabase where
  state : String
  healthy : Bool
  error : Option String
  responseTime : Option Nat
deriving Repr, DecidableEq

/-- Response of the `/health` handler (part_001, lines 623-705). -/
structure HealthResponse where
  statusCode : Nat
  status : String
  database : HealthDatabase
deriving Repr, DecidableEq

/-- Model of the `/health` handler: the state label is computed from the
current `readyState`; only in the Connected state is a live admin ping
performed, with its measured duration recorded on success and on caught
failure; in every other state no probe runs, the error field reports the
state, and the response is unhealthy. The status code is 200 exactly when
the overall status stayed healthy. -/
def healthHandler (dbState : DbState) (ping : Except String Unit) (probeMs : Nat) :
    HealthResponse :=
  let label := dbStateLabel dbState
  if dbState = DbState.connected then
    match ping with
    | Except.ok _ => ⟨200, "healthy", ⟨label, true, none, some probeMs⟩⟩
    | Except.error e => ⟨503, "unhealthy", ⟨label, false, some e, some probeMs⟩⟩
  else
    ⟨503, "unhealthy", ⟨label, false, some ("Database is " ++ label), none⟩⟩

/-! ### connectWithRetry (part_001, lines 531-563) -/

/-- Observable outcome of the retry loop: how many attempts ran, whether a
connection was established, and the delays waited between attempts. -/
structure RetryOutcome where
  attemptsMade : Nat
  connected : Bool
  waits : List Nat
deriving Repr, DecidableEq

/-- The loop body of `connectWithRetry`: `attempt` is the current attempt
number, the second argument the number of attempts still allowed. On failure
before the last allowed attempt the loop waits the fixed delay and retries;
failure on the last allowed attempt rethrows. -/
def retryLoopAux (succeeds : Nat → Bool) (retryDelay : Nat) : Nat → Nat → RetryOutcome
  | _, 0 => ⟨0, false, []⟩
  | attempt, 1 => ⟨1, succeeds attempt, []⟩
  | attempt, n + 2 =>
    if succeeds attempt then ⟨1, true, []⟩
    else
      let rest := retryLoopAux succeeds retryDelay (attempt + 1) (n + 1)
      ⟨rest.attemptsMade + 1, rest.connected, retryDelay :: rest.waits⟩

/-- The hardcoded `maxRetries` constant of `connectWithRetry`. -/
def serverMaxRetries : Nat := 10

/-- The hardcoded `retryDelay` constant of `connectWithRetry`, in ms. -/
def serverRetryDelayMs : Nat := 5000

/-- Run `connectWithRetry` given, for each attempt number, whether the
`mongoose.connect` call succeeds. -/
def connectWithRetry (succeeds : Nat → Bool) : RetryOutcome :=
  retryLoopAux succeeds serverRetryDelayMs 1 serverMaxRetries

/-- The `.catch` handler on the initial `connectWithRetry()` call: a loop
that ends without a connection makes the process exit with code 1. -/
def connectExitCode (succeeds : Nat → Bool) : Option Nat :=
  if (connectWithRetry succeeds).connected then none else some 1

/-! ### Concrete instances used by individual claims -/

/-- An instance whose secret `JWT_SECRET` resolves to the empty string. -/
def c5State : EnvironmentConfig :=
  { environment := "production", requiredVars := [], secretVars := defaultSecretVars,
    config := setKey emptyConfig "JWT_SECRET" "" }

/-- An instance whose secret `JWT_SECRET` resolves to a non-empty value. -/
def c5WitnessState : EnvironmentConfig :=
  { environment := "production", requiredVars := [], secretVars := defaultSecretVars,
    config := setKey emptyConfig "JWT_SECRET" "hunter2" }

/-- An instance where `PORT` resolves to a non-numeric string. -/
def c9State : EnvironmentConfig :=
  { environment := "development", requiredVars := [], secretVars := defaultSecretVars,
    config := setKey emptyConfig "PORT" "abc" }

/-! ### Claim theorems -/

/-- Claim C1: the claim says that with NODE_ENV, PORT and MONGODB_URI
registered as required keys before validation runs, an absent or empty
required key makes validation fail and abort the process. In the code,
`validateConfiguration` runs inside the constructor while `requiredVars` is
still empty; `require(...)` registers the keys only afterwards and nothing
re-validates. With a completely empty process environment and no files,
module initialization succeeds even though every required key (in
particular MONGODB_URI) is absent — yet the validator, had it been run with
the registered key set, would have reported all three keys missing, and an
empty-string value is indeed treated like an absent one. -/
theorem C1_required_keys_not_enforced :
    initSucceeded (moduleInit emptyConfig []) = true ∧
    resolveConfig [] emptyConfig "MONGODB_URI" = none ∧
    (moduleInit emptyConfig []).toOption.map (fun st => st.requiredVars) = some appRequiredVars ∧
    (computeValidation appRequiredVars defaultSecretVars "development"
        (resolveConfig [] emptyConfig)).missingKeys = appRequiredVars ∧
    (computeValidation ["PORT"] [] "development" (setKey emptyConfig "PORT" "")).missingKeys
      = ["PORT"] := by
  refine ⟨rfl, rfl, rfl, rfl, rfl⟩

/-- Claim C2: the claim (and the loader doc comment) say a later,
environment-suffixed file layer overrides the base file, resolving PORT to
"4000". The code iterates the files base-first and inserts a key only when
absent, so the base file wins among file layers: with base `PORT=3000`,
environment-suffixed `PORT=4000` and no process-environment PORT, the
resolved value is "3000", not "4000". -/
theorem C2_base_file_wins_over_env_suffixed :
    resolveConfig [some "PORT=3000", some "PORT=4000", none] emptyConfig "PORT" = some "3000" ∧
    resolveConfig [some "PORT=3000", some "PORT=4000", none] emptyConfig "PORT" ≠ some "4000" := by
  exact ⟨by decide, by decide⟩

/-- Claim C3: every key present in the process environment resolves to its
process-environment value, overriding any file layer. -/
theorem C3_process_env_overrides_files (files : List (Option String)) (penv : ConfigMap)
    (k v : String) (h : penv k = some v) :
    resolveConfig files penv k = some v := by
  simp [resolveConfig, overlayProcessEnv, h]

/-- Witness for C3: a base file sets PORT=3000 and the process environment
sets PORT=5000; the resolved value is "5000". -/
theorem C3_witness :
    (setKey emptyConfig "PORT" "5000") "PORT" = some "5000" ∧
    resolveConfig [some "PORT=3000"] (setKey emptyConfig "PORT" "5000") "PORT" = some "5000" :=
  ⟨rfl, C3_process_env_overrides_files [some "PORT=3000"]
    (setKey emptyConfig "PORT" "5000") "PORT" "5000" rfl⟩

/-- Claim C4: a non-empty secret value is classified insecure exactly under
the disjunction of conditions the specification lists; any value shorter
than 16 characters is insecure regardless of content; "your-secret-here" is
insecure and "f3a9c1e7b5d2468091a7c3e5b9d1f204" is secure. -/
theorem C4_insecure_classification_matches_spec :
    (∀ v : String, v ≠ "" → (isInsecureSecret v = true ↔ specInsecureClassification v)) ∧
    (∀ v : String, strLen v < 16 → isInsecureSecret v = true) ∧
    isInsecureSecret "your-secret-here" = true ∧
    isInsecureSecret "f3a9c1e7b5d2468091a7c3e5b9d1f204" = false := by
  refine ⟨?_, ?_, by decide, by decide⟩
  · intro v _
    simp only [isInsecureSecret, insecureSourcePatterns, specInsecureClassification,
      hasCIPrefixAmong, List.any_cons, List.any_nil, Bool.or_eq_true, Bool.or_false,
      decide_eq_true_eq, List.mem_cons, List.not_mem_nil, exists_eq_or_imp, false_or,
      exists_false, or_false, exists_eq_left]
    tauto
  · intro v h
    simp [isInsecureSecret, h]

/-- Witness for C4: a concrete short value is classified insecure. -/
theorem C4_witness : isInsecureSecret "zz" = true :=
  C4_insecure_classification_matches_spec.2.1 "zz" (by decide)

/-- Counterexample for C5: a secret key whose value is the empty string is
not replaced by the mask token — the sanitized view returns the empty value
itself, so not every SecretKeySet member value is replaced. -/
theorem C5_counterexample :
    getSanitizedConfig c5State "JWT_SECRET" = some "" ∧ some "" ≠ some maskToken := by
  exact ⟨by decide, by decide⟩

/-- Claim C5 (amended): every secret key whose value is present and
non-empty is mapped to the fixed mask token by the sanitized view. -/
theorem C5_sanitized_masks_nonempty_secrets (st : EnvironmentConfig) (k v : String)
    (hk : st.secretVars.contains k = true) (hv : st.config k = some v) (hne : v ≠ "") :
    getSanitizedConfig st k = some maskToken := by
  simp only [getSanitizedConfig, hv]
  rw [if_pos hk, if_neg hne]

/-- Witness for C5: a concrete non-empty secret value is masked. -/
theorem C5_witness :
    c5WitnessState.secretVars.contains "JWT_SECRET" = true ∧
    c5WitnessState.config "JWT_SECRET" = some "hunter2" ∧
    getSanitizedConfig c5WitnessState "JWT_SECRET" = some maskToken :=
  ⟨by decide, by decide,
    C5_sanitized_masks_nonempty_secrets c5WitnessState "JWT_SECRET" "hunter2"
      (by decide) (by decide) (by decide)⟩

/-- Counterexample for C6: with the connection state Connected but the
quick admin ping failing, the `/ready` handler answers 503, so readiness is
not true in every Connected state; the body carries the fixed status and
error strings, not the connection state label. -/
theorem C6_counterexample :
    readyHandler DbState.connected (Except.error "ping timeout") =
      ⟨503, "not ready", none, some "ping timeout"⟩ := by decide

/-- Claim C6 (amended): `/ready` answers 200 exactly when the connection
state is Connected and the quick admin ping succeeds; in any state other
than Connected it answers 503 immediately, with the fixed reason string
"Database not connected" in the body. -/
theorem C6_ready_requires_connected_and_ping (s : DbState) (ping : Except String Unit) :
    ((readyHandler s ping).statusCode = 200 ↔ (s = DbState.connected ∧ pingOk ping = true)) ∧
    (s ≠ DbState.connected →
      (readyHandler s ping).statusCode = 503 ∧
      (readyHandler s ping).reason = some "Database not connected") := by
  cases s <;> cases ping <;> simp [readyHandler, pingOk]

/-- Witness for C6: in the disconnected state the handler answers 503 with
the fixed reason. -/
theorem C6_witness :
    (readyHandler DbState.disconnected (Except.ok ())).statusCode = 503 ∧
    (readyHandler DbState.disconnected (Except.ok ())).reason = some "Database not connected" :=
  (C6_ready_requires_connected_and_ping DbState.disconnected (Except.ok ())).2 (by decide)

/-- Counterexample for C7: a healthiness query in the disconnected state
performs no probe at all — the response carries no measured probe latency
(`responseTime` stays null), so not every healthiness query performs a
probe and reports its latency. -/
theorem C7_counterexample :
    healthHandler DbState.disconnected (Except.ok ()) 5 =
      ⟨503, "unhealthy", ⟨"disconnected", false, some "Database is disconnected", none⟩⟩ := by
  decide

/-- Claim C7 (amended): a healthiness query probes the dependency exactly
when the current connection state is Connected, reporting the measured
latency on success and on caught failure; the status code is 200 exactly
when the state is Connected and the fresh probe succeeded; a probe failure
yields 503 with the error captured in the response — even though the state
is Connected — rather than an uncaught crash. -/
theorem C7_health_live_probe (s : DbState) (ping : Except String Unit) (t : Nat) :
    ((healthHandler s ping t).statusCode = 200 ↔ (s = DbState.connected ∧ pingOk ping = true)) ∧
    ((healthHandler s ping t).database.responseTime = some t ↔ s = DbState.connected) ∧
    (∀ e, s = DbState.connected → ping = Except.error e →
      (healthHandler s ping t).statusCode = 503 ∧
      (healthHandler s ping t).database.error = some e ∧
      (healthHandler s ping t).database.responseTime = some t) := by
  cases s <;> cases ping <;> simp [healthHandler, pingOk, dbStateLabel]

/-- Witness for C7: a failing probe in the Connected state yields 503, the
error message, and a measured latency. -/
theorem C7_witness :
    (healthHandler DbState.connected (Except.error "probe failed") 7).statusCode = 503 ∧
    (healthHandler DbState.connected (Except.error "probe failed") 7).database.error
      = some "probe failed" ∧
    (healthHandler DbState.connected (Except.error "probe failed") 7).database.responseTime
      = some 7 :=
  (C7_health_live_probe DbState.connected (Except.error "probe failed") 7).2.2
    "probe failed" rfl rfl

/-- Counterexample for C8: the retry loop is not configurable — with every
attempt failing it makes the hardcoded 10 attempts, not 3, and the
inter-attempt delay is the hardcoded constant 5000 ms, not a value sourced
from configuration. -/
theorem C8_counterexample :
    (connectWithRetry (fun _ => false)).attemptsMade = 10 ∧
    (connectWithRetry (fun _ => false)).attemptsMade ≠ 3 ∧
    serverRetryDelayMs = 5000 := by decide

/-- Claim C8 (amended): when every connection attempt fails, the loop makes
exactly `serverMaxRetries` (= 10, hardcoded) attempts, separated by nine
waits of the hardcoded 5000 ms delay, ends without a connection, and the
catch handler exits the process with code 1. -/
theorem C8_retry_exhaustion_ten_attempts (succeeds : Nat → Bool)
    (h : ∀ n, succeeds n = false) :
    connectWithRetry succeeds
      = ⟨serverMaxRetries, false, List.replicate 9 serverRetryDelayMs⟩ ∧
    connectExitCode succeeds = some 1 := by
  have hs : succeeds = fun _ => false := funext h
  subst hs
  decide

/-- Witness for C8: the all-failures outcome, concretely. -/
theorem C8_witness :
    connectWithRetry (fun _ => false)
      = ⟨serverMaxRetries, false, List.replicate 9 serverRetryDelayMs⟩ ∧
    connectExitCode (fun _ => false) = some 1 :=
  C8_retry_exhaustion_ten_attempts (fun _ => false) (fun _ => rfl)

/-- Counterexample for C9: with PORT present but non-numeric ("abc") and a
default of 8080, `getInt` returns the NaN result (inner `none`), not the
default — the call does not fall back to the default on parse failure. -/
theorem C9_counterexample :
    getInt c9State "PORT" (some 8080) = some none ∧
    getInt c9State "PORT" (some 8080) ≠ some (some 8080) := by
  exact ⟨by decide, by decide⟩

/-- Claim C9 (amended): `getInt` parses the resolved value with JS
`parseInt` semantics; when the value is present but does not parse, the
result is deterministically NaN (modelled as the inner `none`), for every
default — the key is not treated as absent and the default is not used. -/
theorem C9_getInt_nan_on_parse_failure (st : EnvironmentConfig) (key : String)
    (d : Option Int) (v : String) (hv : st.config key = some v)
    (hp : parseIntJS v = none) :
    getInt st key d = some none := by
  simp [getInt, hv, hp]

/-- Witness for C9: the concrete malformed value "abc" yields NaN. -/
theorem C9_witness :
    c9State.config "PORT" = some "abc" ∧ parseIntJS "abc" = none ∧
    getInt c9State "PORT" (some 8080) = some none :=
  ⟨by decide, by decide,
    C9_getInt_nan_on_parse_failure c9State "PORT" (some 8080) "abc" (by decide) (by decide)⟩

/-- Claim C10: when NODE_ENV is absent from the process environment the
resolved environment label is "development", and because the insecure-secret
check runs only under the exact label "production", the validator then
reports no insecure keys for any required-key set, secret-key set and file
layers. -/
theorem C10_development_default_disables_secret_check (penv : ConfigMap)
    (files : List (Option String)) (h : penv "NODE_ENV" = none) :
    resolveEnvironment penv = "development" ∧
    ∀ requiredVars secretVars : List String,
      (computeValidation requiredVars secretVars (resolveEnvironment penv)
        (resolveConfig files penv)).insecureKeys = [] := by
  have he : resolveEnvironment penv = "development" := by simp [resolveEnvironment, h]
  refine ⟨he, ?_⟩
  intro req sec
  rw [he]
  simp [computeValidation]

/-- Witness for C10: the empty process environment resolves to the
development label and yields no insecure keys. -/
theorem C10_witness :
    emptyConfig "NODE_ENV" = none ∧
    resolveEnvironment emptyConfig = "development" ∧
    (computeValidation appRequiredVars defaultSecretVars (resolveEnvironment emptyConfig)
      (resolveConfig [] emptyConfig)).insecureKeys = [] := by
  refine ⟨rfl, (C10_development_default_disables_secret_check emptyConfig [] rfl).1,
    (C10_development_default_disables_secret_check emptyConfig [] rfl).2
      appRequiredVars defaultSecretVars⟩

end BBApp
